import Mathlib

/-!
Verification development for `lib/docbookify-options-json.py`:
a shallow embedding of the script's data model (JSON records keyed by
structural location), its catalog pivot / merge / un-pivot logic, its
Markdown renderer methods, and its whitespace-preservation wrappers,
together with theorems settling the specification's claims.
-/

/-- JSON values as produced by `json.load`: Python `None`/`bool`/`int`/
`str`/`list`/`dict` (dicts modelled as insertion-ordered association
lists, matching Python 3 dict semantics). -/
inductive JValue where
  | null : JValue
  | b (x : Bool) : JValue
  | num (x : Int) : JValue
  | str (s : String) : JValue
  | arr (xs : List JValue) : JValue
  | obj (xs : List (String × JValue)) : JValue

mutual

/-- Structural equality of JSON values, i.e. Python `==` on the values
`json.load` produces. -/
def JValue.beq : JValue → JValue → Bool
  | .null, .null => true
  | .b x, .b y => x == y
  | .num x, .num y => x == y
  | .str x, .str y => x == y
  | .arr xs, .arr ys => JValue.beqArr xs ys
  | .obj xs, .obj ys => JValue.beqObj xs ys
  | _, _ => false

/-- Elementwise equality of JSON arrays. -/
def JValue.beqArr : List JValue → List JValue → Bool
  | [], [] => true
  | x :: xs, y :: ys => JValue.beq x y && JValue.beqArr xs ys
  | _, _ => false

/-- Elementwise equality of JSON object entry lists. -/
def JValue.beqObj : List (String × JValue) → List (String × JValue) → Bool
  | [], [] => true
  | (k1, v1) :: xs, (k2, v2) :: ys =>
      k1 == k2 && JValue.beq v1 v2 && JValue.beqObj xs ys
  | _, _ => false

end

instance : BEq JValue := ⟨JValue.beq⟩

/-- A record of the options catalog: a Python dict from field name to
JSON value (insertion-ordered association list, keys unique). -/
abbrev Record := List (String × JValue)

/-- Python exceptions raised by the script. -/
inductive PyError where
  /-- `AttributeError`: attribute lookup failed (names the attribute). -/
  | attributeError (attr : String)
  /-- `KeyError` from `d[k]` on a missing key. -/
  | keyError (key : String)
  /-- `TypeError`, e.g. iterating a non-sequence. -/
  | typeError (msg : String)
  /-- `RuntimeError('multiple options with colliding ids found', name, loc1, loc2)`
  raised by `unpivot` (lines 49-54). -/
  | runtimeError (msg : String) (name : JValue) (loc1 loc2 : JValue)
  /-- `NotImplementedError(args...)` raised by the Renderer. -/
  | notImplementedError (args : List String)

/-- Association-list lookup, i.e. Python `d.get(k, None)` restricted to
its `Some`/`None` distinction. -/
def lookupField (r : Record) (k : String) : Option JValue :=
  (r.find? (fun p => p.1 == k)).map (fun p => p.2)

/-- Python `d[k]` on a record: the value, or `KeyError`. -/
def pyGetR (r : Record) (k : String) : Except PyError JValue :=
  match lookupField r k with
  | some v => .ok v
  | none => .error (.keyError k)

/-- Python `d[k] = v` on a record dict: an existing key keeps its
position and gets the new value; a fresh key is appended (Python 3
dicts preserve insertion order). -/
def assocSetR (r : Record) (k : String) (v : JValue) : Record :=
  if (r.find? (fun p => p.1 == k)).isSome then
    r.map (fun p => if p.1 == k then (p.1, v) else p)
  else
    r ++ [(k, v)]

/-- A record's `name` field, when present. -/
def nameOf (r : Record) : Option JValue := lookupField r "name"

/-- A record's `loc` field, when present. -/
def locOf (r : Record) : Option JValue := lookupField r "loc"

/-- Lookup in the name-keyed result dict built by `unpivot` (keys are the
`name` JSON values, compared by Python `==`). -/
def lookupName (acc : List (JValue × Record)) (n : JValue) :
    Option (JValue × Record) :=
  acc.find? (fun p => JValue.beq p.1 n)

/-- One iteration of `unpivot`'s loop (lines 46-55): read `opt['name']`;
if the name is already a key of `result`, raise
`RuntimeError('multiple options with colliding ids found', name,
result[name]['loc'], opt['loc'])`; otherwise insert `result[name] = opt`
(a fresh key, hence appended in insertion order). -/
def unpivotStep (acc : List (JValue × Record)) (opt : Record) :
    Except PyError (List (JValue × Record)) :=
  match pyGetR opt "name" with
  | .error e => .error e
  | .ok name =>
      match lookupName acc name with
      | some prev =>
          match pyGetR prev.2 "loc" with
          | .error e => .error e
          | .ok l1 =>
              match pyGetR opt "loc" with
              | .error e => .error e
              | .ok l2 =>
                  .error (.runtimeError
                    "multiple options with colliding ids found" name l1 l2)
      | none => .ok (acc ++ [(name, opt)])

/-- `unpivot` (lines 44-56): rebuild the catalog keyed by display name,
failing on colliding names; `result.values()` lists records in insertion
order. The argument is the merged mapping's value sequence. -/
def unpivot (options : List Record) : Except PyError (List Record) :=
  match options.foldlM unpivotStep [] with
  | .error e => .error e
  | .ok result => .ok (result.map (fun p => p.2))

/-- The `Key` class (lines 18-30): wraps a record's `loc` JSON value
(an array of path segments); equality is structural on the path. -/
structure Key where
  path : JValue

instance : BEq Key := ⟨fun a b => JValue.beq a.path b.path⟩

/-- Python `d[k] = v` on the Key-indexed dict built by `pivot`:
an existing key keeps its position (last write wins), a fresh key is
appended. -/
def assocSetK (d : List (Key × Record)) (k : Key) (v : Record) :
    List (Key × Record) :=
  if (d.find? (fun p => p.1 == k)).isSome then
    d.map (fun p => if p.1 == k then (p.1, v) else p)
  else
    d ++ [(k, v)]

/-- `pivot` (lines 34-38): index a catalog by `Key(opt['loc'])`. -/
def pivot (options : List Record) : Except PyError (List (Key × Record)) :=
  options.foldlM
    (fun acc opt => do
      let l ← pyGetR opt "loc"
      Except.ok (assocSetK acc ⟨l⟩ opt))
    []

/-- Python `options.setdefault(k, v)`: return the present value, or
insert and return `v`; also returns the (possibly extended) dict. -/
def pySetdefault (d : List (Key × Record)) (k : Key) (v : Record) :
    Record × List (Key × Record) :=
  match d.find? (fun p => p.1 == k) with
  | some p => (p.2, d)
  | none => (v, d ++ [(k, v)])

/-- Python attribute lookup `r.value` on a record (line 350 resp. 351).
The records held in the pivoted dicts are plain dicts (`pivot`, line 37,
stores `opt` itself), and a Python dict has no `value` attribute, so
this lookup always raises `AttributeError` regardless of the record's
contents. (The upstream script wrapped records in a
`collections.namedtuple('Option', ['name', 'value'])`; this variant
dropped the wrapper in `pivot` but kept the `.value` accesses — note the
now-unused `collections` import.) -/
def recordValueAttr (_ : Record) : Except PyError Record :=
  Except.error (.attributeError "value")

/-- Python `d in xs` membership by value, used on the declarations list. -/
def pyMem (xs : List JValue) (d : JValue) : Bool :=
  xs.any (fun x => JValue.beq x d)

/-- JSON-array contents, for iterating `for d in ov` and extending the
declarations list; the catalog's `declarations` and `loc` fields are
arrays. -/
def asArr : JValue → Except PyError (List JValue)
  | .arr xs => Except.ok xs
  | _ => Except.error (.typeError "not a JSON array")

/-- The merge loop body for one override field (lines 352-362), applied
to the current merged record `cur` and one `(ok, ov)` item of the
override record:
* `declarations`: append override entries not already present by value
  (membership is checked against the list as it grows);
* `type`: take the override's type unless it is the `"_unspecified"`
  sentinel while the current type is not;
* any other field: the override value wins unless it is `None` and the
  current record has a non-`None` value for the field
  (`cur.get(ok, None) is None` treats an absent field and a `None` field
  alike). -/
def mergeField (cur : Record) (kv : String × JValue) : Except PyError Record :=
  if kv.1 = "declarations" then do
    let decls ← pyGetR cur "declarations"
    let cl ← asArr decls
    let ovl ← asArr kv.2
    Except.ok (assocSetR cur "declarations"
      (.arr (ovl.foldl (fun acc d => if pyMem acc d then acc else acc ++ [d]) cl)))
  else if kv.1 = "type" then
    if JValue.beq kv.2 (.str "_unspecified") then do
      let ct ← pyGetR cur "type"
      if JValue.beq ct (.str "_unspecified") then
        Except.ok (assocSetR cur "type" kv.2)
      else Except.ok cur
    else Except.ok (assocSetR cur "type" kv.2)
  else
    match kv.2 with
    | .null =>
        match lookupField cur kv.1 with
        | none => Except.ok (assocSetR cur kv.1 .null)
        | some .null => Except.ok (assocSetR cur kv.1 .null)
        | some _ => Except.ok cur
    | v => Except.ok (assocSetR cur kv.1 v)

/-- Lines 351-362: fold the merge loop body over the override record's
items. This is the per-field combination policy the merge loop would
apply to a primary/override record pair — were the records ever reached
through the `.value` attribute (see `recordValueAttr`). -/
def mergeFields (cur ov : Record) : Except PyError Record :=
  ov.foldlM mergeField cur

/-- One iteration of the merge loop (lines 349-362) for one override
entry `(k, v)`: `cur = options.setdefault(k, v).value` runs the
`setdefault` first, then the `.value` attribute lookup — which raises
`AttributeError`, so the per-field merge below it is dead code. -/
def mergeStep (options : List (Key × Record)) (kv : Key × Record) :
    Except PyError (List (Key × Record)) := do
  let sd := pySetdefault options kv.1 kv.2
  let cur ← recordValueAttr sd.1
  let vv ← recordValueAttr kv.2
  let merged ← mergeFields cur vv
  Except.ok (assocSetK sd.2 kv.1 merged)

/-- The merge of the two pivoted catalogs (lines 348-362):
`for (k, v) in overrides.items(): ...`. -/
def mergeOptions (options overrides : List (Key × Record)) :
    Except PyError (List (Key × Record)) :=
  overrides.foldlM mergeStep options

/-- Python `s.replace(p, r)` for a single-character pattern `p`: one
left-to-right pass replacing every occurrence of `p` (characters the
replacement text introduces are not scanned again). -/
def replaceCharL (p : Char) (r : List Char) (s : List Char) : List Char :=
  (s.map (fun c => if c = p then r else [c])).flatten

/-- `xml.sax.saxutils.escape` with no extra entities: replace `&` first,
then `>`, then `<`. -/
def escapeL (s : List Char) : List Char :=
  replaceCharL '<' "&lt;".data
    (replaceCharL '>' "&gt;".data (replaceCharL '&' "&amp;".data s))

/-- `xml.sax.saxutils.escape` on strings. -/
def escape (s : String) : String := ⟨escapeL s.data⟩

/-- Python whitespace as stripped by `str.rstrip()`, restricted to the
ASCII whitespace characters (Python also strips further Unicode
whitespace code points; the whitespace-contract lemmas below are proved
for an arbitrary predicate, so nothing depends on the exact set). -/
def isPySpace (c : Char) : Bool :=
  c = ' ' || c = '\t' || c = '\n' || c = '\r' || c = '\x0b' || c = '\x0c'

/-- `str.rstrip()` with respect to a whitespace predicate `p`: remove
the longest all-`p` suffix. -/
def rstripByL (p : Char → Bool) (s : List Char) : List Char :=
  (s.reverse.dropWhile p).reverse

/-- `str.rstrip()` on character lists. -/
def rstripL (s : List Char) : List Char := rstripByL isPySpace s

/-- `str.rstrip()` on strings. -/
def rstrip (s : String) : String := ⟨rstripL s.data⟩

/-- The trailing-whitespace suffix `s[len(s.rstrip()):]` with respect to
a whitespace predicate `p` (Python indexes by code point, as `List.drop`
does on `String.data`). -/
def pyTrailByL (p : Char → Bool) (s : List Char) : List Char :=
  s.drop (rstripByL p s).length

/-- The trailing-whitespace suffix `s[len(s.rstrip()):]` of a string. -/
def pyTrail (s : String) : String := ⟨pyTrailByL isPySpace s.data⟩

/-- The single-quote character (written by code point to keep string
literals quote-free). -/
def squote : Char := Char.ofNat 39

/-- `xml.sax.saxutils.quoteattr`: escape with the extra entities
`\n ↦ &#10;`, `\r ↦ &#13;`, `\t ↦ &#9;` (applied after the base three
replacements), then wrap in double quotes, switching to single quotes —
or escaping the double quote — when the quote characters themselves
occur. -/
def quoteattrL (s : List Char) : List Char :=
  let d := replaceCharL '\t' "&#9;".data
    (replaceCharL '\r' "&#13;".data (replaceCharL '\n' "&#10;".data (escapeL s)))
  if d.contains '"' then
    if d.contains squote then '"' :: (replaceCharL '"' "&quot;".data d ++ ['"'])
    else squote :: (d ++ [squote])
  else '"' :: (d ++ ['"'])

/-- `xml.sax.saxutils.quoteattr` on strings. -/
def quoteattr (s : String) : String := ⟨quoteattrL s.data⟩

/-- Python `s[0:1]` (first character as a string, empty when `s` is). -/
def pyTake1 (s : String) : String := ⟨s.data.take 1⟩

/-- Python `s[1:]`. -/
def pyDrop1 (s : String) : String := ⟨s.data.drop 1⟩

/-- A Python f-string interpolation of a value that may be `None`
(`None` prints as `"None"`); the Renderer's `link` receives `text=None`
when the markup engine supplies no link text. -/
def optStr : Option String → String
  | some s => s
  | none => "None"

/-- `Renderer.text` (lines 79-80): `escape(text)`. -/
def Renderer.text (t : String) : String := escape t

/-- `Renderer.paragraph` (lines 82-83). -/
def Renderer.paragraph (t : String) : String := "<simpara>" ++ t ++ "</simpara>\n"

/-- `Renderer.newline` (lines 85-86). -/
def Renderer.newline : String := "<literallayout>\n</literallayout>"

/-- `Renderer.codespan` (lines 88-89). -/
def Renderer.codespan (t : String) : String := "<literal>" ++ escape t ++ "</literal>"

/-- `Renderer.block_code` (lines 91-93). -/
def Renderer.block_code (t : String) (info : Option String) : String :=
  let i := match info with
    | some s => " language=" ++ quoteattr s
    | none => ""
  "<programlisting" ++ i ++ ">\n" ++ escape t ++ "</programlisting>"

/-- `Renderer.link` (lines 95-109): fragment targets (`#...`) become
`linkend` cross-references (`xref` when the text is the empty string),
other targets become `xlink:href` links with the visible text blanked
when it equals the target verbatim. -/
def Renderer.link (lnk : String) (text : Option String) : String :=
  if pyTake1 lnk = "#" then
    let tag := if text = some "" then "xref" else "link"
    "<" ++ tag ++ " linkend=" ++ quoteattr (pyDrop1 lnk) ++ ">" ++
      optStr text ++ "</" ++ tag ++ ">"
  else
    let text2 := if text = some lnk then some "" else text
    "<link xlink:href=" ++ quoteattr lnk ++ ">" ++ optStr text2 ++ "</link>"

/-- `Renderer.list` (lines 111-114): ordered lists raise
`NotImplementedError('ordered lists not supported yet')`. -/
def Renderer.list (text : String) (ordered : Bool) (_level : Nat)
    (_start : Option Nat) : Except PyError String :=
  if ordered then Except.error (.notImplementedError ["ordered lists not supported yet"])
  else Except.ok ("<itemizedlist>\n" ++ text ++ "\n</itemizedlist>")

/-- `Renderer.list_item` (lines 116-117). -/
def Renderer.list_item (text : String) (_level : Nat) : String :=
  "<listitem><para>" ++ text ++ "</para></listitem>\n"

/-- `Renderer.block_text` (lines 119-120). -/
def Renderer.block_text (text : String) : String := text

/-- `Renderer.emphasis` (lines 122-123). -/
def Renderer.emphasis (text : String) : String :=
  "<emphasis>" ++ text ++ "</emphasis>"

/-- `Renderer.strong` (lines 125-126). -/
def Renderer.strong (text : String) : String :=
  "<emphasis role=\"strong\">" ++ text ++ "</emphasis>"

/-- The `admonitions` table (lines 59-63). -/
def admonitions : List (String × String) :=
  [(".warning", "warning"), (".important", "important"), (".note", "note")]

/-- `Renderer.admonition` (lines 128-135): unrecognized kinds raise
`NotImplementedError(f"admonition {kind} not supported yet")`; a
recognized kind wraps the body, with its trailing whitespace stripped,
in `<tag><para>...</para></tag>`. -/
def Renderer.admonition (text : String) (kind : String) : Except PyError String :=
  match (admonitions.find? (fun p => p.1 == kind)).map (fun p => p.2) with
  | none => Except.error (.notImplementedError ["admonition " ++ kind ++ " not supported yet"])
  | some tag =>
      Except.ok ("<" ++ tag ++ "><para>" ++ rstrip text ++ "</para></" ++ tag ++ ">")

/-- `Renderer.block_quote` (lines 137-138). -/
def Renderer.block_quote (text : String) : String :=
  "<blockquote><para>" ++ text ++ "</para></blockquote>"

/-- `Renderer.command` (lines 140-141). -/
def Renderer.command (text : String) : String :=
  "<command>" ++ escape text ++ "</command>"

/-- `Renderer.option` (lines 143-144). -/
def Renderer.option (text : String) : String :=
  "<option>" ++ escape text ++ "</option>"

/-- `Renderer.file` (lines 146-147). -/
def Renderer.file (text : String) : String :=
  "<filename>" ++ escape text ++ "</filename>"

/-- `Renderer.var` (lines 149-150). -/
def Renderer.var (text : String) : String :=
  "<varname>" ++ escape text ++ "</varname>"

/-- `Renderer.env` (lines 152-153). -/
def Renderer.env (text : String) : String :=
  "<envar>" ++ escape text ++ "</envar>"

/-- `Renderer.manpage` (lines 155-158). -/
def Renderer.manpage (page sect : String) : String :=
  "<citerefentry>" ++ ("<refentrytitle>" ++ escape page ++ "</refentrytitle>")
    ++ ("<manvolnum>" ++ escape sect ++ "</manvolnum>") ++ "</citerefentry>"

/-- `Renderer.finalize` (lines 160-161). -/
def Renderer.finalize (data : List String) : String := String.join data

/-- The node-kind names for which the `Renderer` class defines a
rendering method (its `def`s, lines 79-161). -/
def rendererMethods : List String :=
  ["text", "paragraph", "newline", "codespan", "block_code", "link",
   "list", "list_item", "block_text", "emphasis", "strong", "admonition",
   "block_quote", "command", "option", "file", "var", "env", "manpage",
   "finalize"]

/-- `Renderer._get_method` (lines 68-77): node kinds with a method
dispatch to it; any other node kind reaching the Renderer gets the
`not_supported` stub, which raises
`NotImplementedError('md node not supported yet', name, args)`. -/
def Renderer.getMethod (name : String) : Except PyError Unit :=
  if name ∈ rendererMethods then Except.ok ()
  else Except.error (.notImplementedError ["md node not supported yet", name])

/-- `convertMarkdown` (lines 250-257): the generic markup engine's
output `md(text)` is an external collaborator here, taken as the
parameter `rendered`; the wrapper returns
`rendered.rstrip() + text[len(text.rstrip()):]`. -/
def convertMarkdownResult (rendered text : String) : String :=
  rstrip rendered ++ pyTrail text

/-- `convertAsciiDoc` (lines 259-269): the AsciiDoc bridge's output is
the opaque parameter `rendered`; the wrapper applies the same
trailing-whitespace transplant as `convertMarkdownResult`. -/
def convertAsciiDocResult (rendered text : String) : String :=
  rstrip rendered ++ pyTrail text

/-! ## Claims about the catalog merge (C3, C4, C5, C10)

Each of these claims describes the per-field combination policy of the
merge loop (lines 349-362).  On the actual code no merged record ever
exists: the first loop iteration evaluates
`options.setdefault(k, v).value` and the records stored by `pivot` are
plain dicts, so the `.value` attribute lookup raises `AttributeError`
before any field is combined.  The theorems below evaluate the merge at
each claim's concrete input (showing the `AttributeError`) and also
evaluate the loop body `mergeFields` (lines 352-362) on the same
records, showing that the body — had it been reachable — implements
exactly the claimed policy. -/

/-- Primary record of the spec's type-merge scenario:
`{loc:["a"], type:"_unspecified", declarations:["x.nix"]}`. -/
def C3primary : Record :=
  [("loc", .arr [.str "a"]), ("type", .str "_unspecified"),
   ("declarations", .arr [.str "x.nix"])]

/-- Override record of the spec's type-merge scenario:
`{loc:["a"], type:"bool", declarations:["y.nix"]}`. -/
def C3override : Record :=
  [("loc", .arr [.str "a"]), ("type", .str "bool"),
   ("declarations", .arr [.str "y.nix"])]

/-- C3: the claim says that for a key present in both catalogs the
merged record's `type` is the override's type unless the override holds
the `"_unspecified"` sentinel and the primary does not.  The code never
produces a merged record: the first merge iteration raises
`AttributeError` at `options.setdefault(k, v).value` (line 350).  The
last conjunct evaluates the (dead) loop body on the claim's own
scenario, confirming the claimed policy is what lines 352-362 express. -/
theorem C3_merge_type_policy_unreachable :
    pivot [C3primary] = Except.ok [(⟨.arr [.str "a"]⟩, C3primary)]
    ∧ pivot [C3override] = Except.ok [(⟨.arr [.str "a"]⟩, C3override)]
    ∧ mergeOptions [(⟨.arr [.str "a"]⟩, C3primary)]
        [(⟨.arr [.str "a"]⟩, C3override)]
        = Except.error (.attributeError "value")
    ∧ mergeFields C3primary C3override
        = Except.ok [("loc", .arr [.str "a"]), ("type", .str "bool"),
                     ("declarations", .arr [.str "x.nix", .str "y.nix"])] :=
  ⟨rfl, rfl, rfl, rfl⟩

/-- Primary record with a non-null `description` the override must not
erase. -/
def C4primary : Record :=
  [("loc", .arr [.str "a"]), ("description", .str "keep")]

/-- Override record with a null `description` and a fresh `example`. -/
def C4override : Record :=
  [("loc", .arr [.str "a"]), ("description", .null), ("example", .str "new")]

/-- C4: the claim says a null override value never erases a present
non-null primary value, while a non-null override value (or any value
for a field the primary lacks) replaces it.  The code raises
`AttributeError` on the first merge iteration (line 350), so no merged
record exists; the last conjunct shows the dead loop body would
implement exactly the claimed policy (description kept, example
added). -/
theorem C4_merge_null_override_unreachable :
    mergeOptions [(⟨.arr [.str "a"]⟩, C4primary)]
        [(⟨.arr [.str "a"]⟩, C4override)]
        = Except.error (.attributeError "value")
    ∧ mergeFields C4primary C4override
        = Except.ok [("loc", .arr [.str "a"]), ("description", .str "keep"),
                     ("example", .str "new")] :=
  ⟨rfl, rfl⟩

/-- Primary record with declarations `["x.nix", "z.nix"]`. -/
def C5primary : Record :=
  [("loc", .arr [.str "a"]),
   ("declarations", .arr [.str "x.nix", .str "z.nix"])]

/-- Override record with declarations `["y.nix", "x.nix", "y.nix"]`
(one entry already present, one entry repeated). -/
def C5override : Record :=
  [("loc", .arr [.str "a"]),
   ("declarations", .arr [.str "y.nix", .str "x.nix", .str "y.nix"])]

/-- C5: the claim says the merged `declarations` list is the primary's
list followed by the override entries not already present by value, in
override order, without duplicates.  The code raises `AttributeError` on
the first merge iteration (line 350); the second conjunct shows the dead
loop body would implement exactly the claimed append-without-duplicates
policy (`y.nix` appended once, `x.nix` skipped, primary order kept). -/
theorem C5_merge_declarations_unreachable :
    mergeOptions [(⟨.arr [.str "a"]⟩, C5primary)]
        [(⟨.arr [.str "a"]⟩, C5override)]
        = Except.error (.attributeError "value")
    ∧ mergeFields C5primary C5override
        = Except.ok [("loc", .arr [.str "a"]),
                     ("declarations",
                      .arr [.str "x.nix", .str "z.nix", .str "y.nix"])] :=
  ⟨rfl, rfl⟩

/-- Primary record whose `default` field is present but null. -/
def C10primary : Record := [("loc", .arr [.str "a"]), ("default", .null)]

/-- Primary record lacking the `default` field altogether. -/
def C10primaryAbsent : Record := [("loc", .arr [.str "a"])]

/-- Override record carrying a null `default`. -/
def C10override : Record := [("default", .null)]

/-- C10: the claim says a null-valued primary field is merged exactly
like an absent one — the override value is written even when it is
itself null.  The code raises `AttributeError` on the first merge
iteration (line 350), so the merge never runs; the remaining conjuncts
show the dead loop body treats the null-valued and the absent `default`
field alike (both end up with the override's null, via
`cur.get(ok, None) is None`). -/
theorem C10_merge_null_primary_unreachable :
    mergeOptions [(⟨.arr [.str "a"]⟩, C10primary)]
        [(⟨.arr [.str "a"]⟩, C10override)]
        = Except.error (.attributeError "value")
    ∧ mergeFields C10primary C10override
        = Except.ok [("loc", .arr [.str "a"]), ("default", .null)]
    ∧ mergeFields C10primaryAbsent C10override
        = Except.ok [("loc", .arr [.str "a"]), ("default", .null)] :=
  ⟨rfl, rfl, rfl⟩

/-! ## The admonition scenario (C8)

The generic markup engine (mistune) is an external collaborator; per the
spec it parses the fenced admonition body as nested block content and
invokes the Renderer bottom-up, children before parents, concatenating
child fragments.  For the input `::: {.warning}\nDo not do X.\n:::\n`
the body `Do not do X.\n` parses to a single paragraph with inline text
`Do not do X.`, so the engine computes
`admonition(paragraph(text("Do not do X.")), ".warning")`. -/

/-- Modelled from the spec: the markup-engine traversal for the
admonition scenario (the engine itself is outside this repository;
its registration and bottom-up rendering contract is spec section 4.1
and 4.2), composed with the source's Renderer methods. -/
def admonitionExampleRender : Except PyError String :=
  Renderer.admonition (Renderer.paragraph (Renderer.text "Do not do X.")) ".warning"

/-- C8 counterexample: the claimed output `<warning><para>Do not do
X.</para></warning>` is not what the code produces — the paragraph
child has already been wrapped in the paragraph container `<simpara>`
(line 83) before `admonition` wraps it again in `<tag><para>...`. -/
theorem C8_admonition_counterexample :
    admonitionExampleRender
      = Except.ok "<warning><para><simpara>Do not do X.</simpara></para></warning>"
    ∧ "<warning><para><simpara>Do not do X.</simpara></para></warning>"
      ≠ "<warning><para>Do not do X.</para></warning>" :=
  ⟨rfl, by decide⟩

/-- C8 (amended): the admonition block renders to
`<warning><para><simpara>Do not do X.</simpara></para></warning>`, the
body's trailing whitespace (the newline `paragraph` appends) being
trimmed before wrapping. -/
theorem C8_admonition_render :
    admonitionExampleRender
      = Except.ok "<warning><para><simpara>Do not do X.</simpara></para></warning>"
    ∧ rstrip (Renderer.paragraph (Renderer.text "Do not do X."))
      = "<simpara>Do not do X.</simpara>" :=
  ⟨rfl, rfl⟩

/-! ## The whitespace-preservation contract (C1) -/

lemma takeWhile_append_of_all {α : Type} (p : α → Bool) {u : List α}
    (v : List α) (h : ∀ c ∈ u, p c = true) :
    (u ++ v).takeWhile p = u ++ v.takeWhile p := by
  induction u with
  | nil => simp
  | cons c cs ih =>
      have hc : p c = true := h c (by simp)
      simp only [List.cons_append, List.takeWhile_cons, hc, if_true]
      rw [ih (fun d hd => h d (by simp [hd]))]

lemma takeWhile_dropWhile_nil {α : Type} (p : α → Bool) (l : List α) :
    (l.dropWhile p).takeWhile p = [] := by
  induction l with
  | nil => simp
  | cons c cs ih =>
      by_cases hc : p c = true
      · simpa [List.dropWhile_cons, hc] using ih
      · simp [List.dropWhile_cons, hc, List.takeWhile_cons]

/-- `s[len(s.rstrip()):]` is the reversed maximal whitespace prefix of
the reversed string. -/
lemma pyTrailByL_eq (p : Char → Bool) (s : List Char) :
    pyTrailByL p s = (s.reverse.takeWhile p).reverse := by
  unfold pyTrailByL rstripByL
  set A := (s.reverse.dropWhile p).reverse with hA
  set B := (s.reverse.takeWhile p).reverse with hB
  have h1 : A ++ B = s := by
    rw [hA, hB, ← List.reverse_append, List.takeWhile_append_dropWhile,
      List.reverse_reverse]
  rw [← h1]
  exact List.drop_left A B

/-- Appending a trailing-whitespace suffix to a right-stripped string
yields a string whose trailing-whitespace suffix is exactly the appended
one. -/
lemma trail_append_trail (p : Char → Bool) (r t : List Char) :
    pyTrailByL p (rstripByL p r ++ pyTrailByL p t) = pyTrailByL p t := by
  rw [pyTrailByL_eq p t, pyTrailByL_eq p (rstripByL p r ++ (t.reverse.takeWhile p).reverse)]
  rw [List.reverse_append, List.reverse_reverse]
  rw [takeWhile_append_of_all p _ (fun c hc => List.mem_takeWhile_imp hc)]
  unfold rstripByL
  rw [List.reverse_reverse, takeWhile_dropWhile_nil, List.append_nil]

/-- C1: for both conversion paths, the trailing-whitespace suffix of the
returned output equals the trailing-whitespace suffix of the original
input text — whatever the opaque conversion engine returned. -/
theorem C1_convert_preserves_trailing_whitespace (rendered text : String) :
    pyTrail (convertMarkdownResult rendered text) = pyTrail text
    ∧ pyTrail (convertAsciiDocResult rendered text) = pyTrail text := by
  constructor <;>
    exact congrArg String.mk (trail_append_trail isPySpace rendered.data text.data)

/-! ## Text-node escaping (C9) -/

/-- The per-character effect of `xml.sax.saxutils.escape`: the three
metacharacters `&`, `>`, `<` become entities, every other character is
untouched. -/
def escCharL (c : Char) : List Char :=
  if c = '&' then "&amp;".data
  else if c = '>' then "&gt;".data
  else if c = '<' then "&lt;".data
  else [c]

/-- Modelled from the spec's words (claim C9): escaping all five XML
metacharacters `&`, `<`, `>`, `"`, `'`.  Used only to state the refuted
reading of the claim; the source's `escape` handles three. -/
def escFiveChar (c : Char) : List Char :=
  if c = '&' then "&amp;".data
  else if c = '<' then "&lt;".data
  else if c = '>' then "&gt;".data
  else if c = '"' then "&quot;".data
  else if c = squote then "&apos;".data
  else [c]

/-- Full five-metacharacter escaping, per the spec's words. -/
def escapeFiveSpec (s : String) : String := ⟨(s.data.map escFiveChar).flatten⟩

lemma replaceCharL_cons (p : Char) (r : List Char) (c : Char) (s : List Char) :
    replaceCharL p r (c :: s) = (if c = p then r else [c]) ++ replaceCharL p r s := by
  simp [replaceCharL]

lemma replaceCharL_append (p : Char) (r : List Char) (u v : List Char) :
    replaceCharL p r (u ++ v) = replaceCharL p r u ++ replaceCharL p r v := by
  simp [replaceCharL]

lemma escapeL_cons (c : Char) (s : List Char) :
    escapeL (c :: s) = escCharL c ++ escapeL s := by
  unfold escapeL
  rw [replaceCharL_cons, replaceCharL_append, replaceCharL_append]
  congr 1
  by_cases h1 : c = '&'
  · subst h1; rfl
  · by_cases h2 : c = '>'
    · subst h2; rfl
    · by_cases h3 : c = '<'
      · subst h3; rfl
      · simp [escCharL, replaceCharL, h1, h2, h3]

/-- The three sequential `str.replace` passes of `escape` amount to a
single per-character substitution (the `&` introduced by the later
replacements is never re-escaped, because `&` is replaced first). -/
lemma escapeL_eq_flatten (s : List Char) :
    escapeL s = (s.map escCharL).flatten := by
  induction s with
  | nil => rfl
  | cons c cs ih => rw [escapeL_cons, ih]; simp

/-- C9 (amended): a text node is rendered as the input with the three
XML metacharacters `&`, `<`, `>` escaped and every other character —
including the two quote characters — untouched. -/
theorem C9_text_escapes_three :
    (∀ s : String, Renderer.text s = ⟨(s.data.map escCharL).flatten⟩)
    ∧ ∀ c : Char, c ≠ '&' → c ≠ '<' → c ≠ '>' → escCharL c = [c] := by
  constructor
  · intro s
    exact congrArg String.mk (escapeL_eq_flatten s.data)
  · intro c h1 h2 h3
    simp [escCharL, h1, h2, h3]

theorem C9_text_witness :
    Renderer.text "a&b" = "a&amp;b" ∧ escCharL 'x' = ['x'] :=
  ⟨(C9_text_escapes_three.1 "a&b").trans (by decide),
   C9_text_escapes_three.2 'x' (by decide) (by decide) (by decide)⟩

/-- C9 counterexample: on the input `"` the claimed five-metacharacter
escaping would produce `&quot;`, but `Renderer.text` leaves the double
quote untouched (`xml.sax.saxutils.escape` escapes only `&`, `<`, `>`).
-/
theorem C9_text_counterexample :
    Renderer.text "\"" ≠ escapeFiveSpec "\"" ∧ Renderer.text "\"" = "\"" :=
  ⟨by decide, by decide⟩

/-! ## Hyperlink rendering (C6) -/

/-- C6: fragment targets render as a `linkend` cross-reference, with the
`xref` tag exactly when the link text is the empty string and the `link`
tag otherwise; non-fragment targets render as an `xlink:href` link whose
visible text is suppressed when it equals the target verbatim, as in the
concrete scenario `[http://x](http://x)`. -/
theorem C6_link_rendering (t s : String) :
    (pyTake1 t = "#" → s = "" →
      Renderer.link t (some s)
        = "<xref linkend=" ++ quoteattr (pyDrop1 t) ++ "></xref>")
    ∧ (pyTake1 t = "#" → s ≠ "" →
      Renderer.link t (some s)
        = "<link linkend=" ++ quoteattr (pyDrop1 t) ++ ">" ++ s ++ "</link>")
    ∧ (pyTake1 t ≠ "#" →
      Renderer.link t (some s)
        = "<link xlink:href=" ++ quoteattr t ++ ">"
            ++ (if s = t then "" else s) ++ "</link>")
    ∧ Renderer.link "http://x" (some "http://x")
        = "<link xlink:href=\"http://x\"></link>" := by
  refine ⟨?_, ?_, ?_, by rfl⟩
  · intro h1 h2
    subst h2
    simp only [Renderer.link, h1, if_true, optStr]
    simp only [String.append_assoc]
    rfl
  · intro h1 h2
    have h3 : (some s = some "") = False := by simp [h2]
    simp only [Renderer.link, h1, if_true, h3, if_false, optStr]
    simp only [String.append_assoc]
    rfl
  · intro h1
    simp only [Renderer.link, h1, if_false, optStr]
    by_cases h4 : s = t
    · subst h4
      simp only [if_pos rfl, optStr]
      simp only [String.append_assoc]
      rfl
    · have h5 : (some s = some t) = False := by simp [h4]
      simp only [h5, if_false, if_neg h4, optStr]

theorem C6_link_witness :
    Renderer.link "#a" (some "") = "<xref linkend=\"a\"></xref>"
    ∧ Renderer.link "#a" (some "T") = "<link linkend=\"a\">T</link>"
    ∧ Renderer.link "u" (some "v") = "<link xlink:href=\"u\">v</link>" := by
  refine ⟨?_, ?_, ?_⟩
  · exact ((C6_link_rendering "#a" "").1 (by rfl) rfl).trans (by decide)
  · exact ((C6_link_rendering "#a" "T").2.1 (by rfl) (by decide)).trans (by decide)
  · exact ((C6_link_rendering "u" "v").2.2.1 (by decide)).trans (by decide)

/-! ## The closed-world node-kind policy (C7) -/

/-- C7: a node kind without a renderer method, an ordered list, and an
admonition with an unrecognized kind all fail with a
construct-not-supported error that identifies the offending construct,
instead of degrading silently. -/
theorem C7_unsupported_constructs (name text kind : String) (lvl : Nat)
    (start : Option Nat) :
    (name ∉ rendererMethods →
      Renderer.getMethod name
        = Except.error (.notImplementedError ["md node not supported yet", name]))
    ∧ Renderer.list text true lvl start
        = Except.error (.notImplementedError ["ordered lists not supported yet"])
    ∧ (kind ∉ [".warning", ".important", ".note"] →
      Renderer.admonition text kind
        = Except.error
            (.notImplementedError ["admonition " ++ kind ++ " not supported yet"])) := by
  refine ⟨?_, by rfl, ?_⟩
  · intro h
    simp [Renderer.getMethod, h]
  · intro h
    simp only [List.mem_cons, List.not_mem_nil, or_false, not_or] at h
    obtain ⟨h1, h2, h3⟩ := h
    have e1 : ((".warning" : String) == kind) = false := by
      simp [beq_iff_eq]; exact fun hx => h1 hx.symm
    have e2 : ((".important" : String) == kind) = false := by
      simp [beq_iff_eq]; exact fun hx => h2 hx.symm
    have e3 : ((".note" : String) == kind) = false := by
      simp [beq_iff_eq]; exact fun hx => h3 hx.symm
    simp [Renderer.admonition, admonitions, List.find?, e1, e2, e3]

theorem C7_unsupported_witness :
    Renderer.getMethod "heading"
      = Except.error (.notImplementedError ["md node not supported yet", "heading"])
    ∧ Renderer.list "x" true 1 none
      = Except.error (.notImplementedError ["ordered lists not supported yet"])
    ∧ Renderer.admonition "x" ".danger"
      = Except.error
          (.notImplementedError ["admonition " ++ ".danger" ++ " not supported yet"]) :=
  ⟨(C7_unsupported_constructs "heading" "x" ".danger" 1 none).1 (by decide),
   (C7_unsupported_constructs "heading" "x" ".danger" 1 none).2.1,
   (C7_unsupported_constructs "heading" "x" ".danger" 1 none).2.2 (by decide)⟩

/-! ## Un-pivot collision detection (C2) -/

lemma JValue.beq_str_iff (x : JValue) (s : String) :
    JValue.beq x (.str s) = true ↔ x = .str s := by
  cases x <;> simp [JValue.beq, beq_iff_eq]

/-- Scanning records whose names are pairwise distinct strings inserts
each one fresh, in order. -/
lemma unpivot_fold_ok (opts : List Record) :
    ∀ acc : List (JValue × Record),
    (∀ r ∈ opts, ∃ s, nameOf r = some (.str s)) →
    (∀ r ∈ opts, ∀ p ∈ acc, nameOf r ≠ some p.1) →
    (opts.map nameOf).Nodup →
    List.foldlM unpivotStep acc opts
      = Except.ok (acc ++ opts.map (fun o => ((nameOf o).getD .null, o))) := by
  induction opts with
  | nil =>
      intro acc _ _ _
      simp only [List.foldlM_nil, List.map_nil, List.append_nil]
      rfl
  | cons o os ih =>
      intro acc hn hacc hnd
      obtain ⟨s, hs⟩ := hn o (List.mem_cons_self o os)
      have hpg : pyGetR o "name" = Except.ok (.str s) := by
        unfold pyGetR
        unfold nameOf at hs
        rw [hs]
      have hlook : lookupName acc (.str s) = none := by
        apply List.find?_eq_none.mpr
        intro p hp hbeq
        have hne := hacc o (List.mem_cons_self o os) p hp
        rw [hs] at hne
        exact hne (by rw [(JValue.beq_str_iff p.1 s).mp hbeq])
      have hstep : unpivotStep acc o = Except.ok (acc ++ [(.str s, o)]) := by
        simp only [unpivotStep, hpg, hlook]
      rw [List.foldlM_cons, hstep]
      have hbind : (Except.ok (acc ++ [(.str s, o)]) >>= fun x =>
          List.foldlM unpivotStep x os)
          = List.foldlM unpivotStep (acc ++ [(.str s, o)]) os := rfl
      rw [hbind]
      rw [List.map_cons] at hnd
      obtain ⟨hno, hnd2⟩ := List.nodup_cons.mp hnd
      have hacc2 : ∀ r ∈ os, ∀ p ∈ acc ++ [((JValue.str s : JValue), o)],
          nameOf r ≠ some p.1 := by
        intro r hr p hp
        rcases List.mem_append.mp hp with hp1 | hp2
        · exact hacc r (List.mem_cons_of_mem o hr) p hp1
        · have hpe : p = (JValue.str s, o) := by simpa using hp2
          subst hpe
          intro heq
          refine hno (List.mem_map.mpr ⟨r, hr, ?_⟩)
          show nameOf r = nameOf o
          simp only at heq
          rw [heq, hs]
      have hrec := ih (acc ++ [(JValue.str s, o)])
        (fun r hr => hn r (List.mem_cons_of_mem o hr)) hacc2 hnd2
      rw [hrec]
      rw [List.append_assoc]
      simp [hs]

/-- Scanning records that contain a name collision (either against the
accumulated dict or among themselves) raises the collision error, whose
payload names the colliding display name and the `loc` values of two
records bearing it. -/
lemma unpivot_fold_err (opts : List Record) :
    ∀ acc : List (JValue × Record),
    (∀ r ∈ opts, (∃ s, nameOf r = some (.str s)) ∧ ∃ l, locOf r = some l) →
    (∀ p ∈ acc, nameOf p.2 = some p.1 ∧ ∃ l, locOf p.2 = some l) →
    ((∃ r ∈ opts, ∃ p ∈ acc, nameOf r = some p.1) ∨ ¬ (opts.map nameOf).Nodup) →
    ∃ n l1 l2,
      List.foldlM unpivotStep acc opts
        = Except.error (.runtimeError "multiple options with colliding ids found" n l1 l2)
      ∧ ((∃ p ∈ acc, nameOf p.2 = some n ∧ locOf p.2 = some l1)
          ∨ ∃ r ∈ opts, nameOf r = some n ∧ locOf r = some l1)
      ∧ (∃ r ∈ opts, nameOf r = some n ∧ locOf r = some l2) := by
  induction opts with
  | nil =>
      intro acc _ _ hcol
      rcases hcol with ⟨r, hr, _⟩ | hnd
      · exact absurd hr (List.not_mem_nil r)
      · simp at hnd
  | cons o os ih =>
      intro acc hf hacc hcol
      obtain ⟨⟨s, hs⟩, ⟨lo, hlo⟩⟩ := hf o (List.mem_cons_self o os)
      have hpg : pyGetR o "name" = Except.ok (.str s) := by
        unfold pyGetR
        unfold nameOf at hs
        rw [hs]
      have hplo : pyGetR o "loc" = Except.ok lo := by
        unfold pyGetR
        unfold locOf at hlo
        rw [hlo]
      cases hfind : lookupName acc (.str s) with
      | some prev =>
          have hfind2 : acc.find? (fun p => JValue.beq p.1 (JValue.str s)) = some prev := hfind
          have hprev_mem : prev ∈ acc := List.mem_of_find?_eq_some hfind2
          have hpa := List.find?_some hfind2
          have hprev_key : prev.1 = .str s := (JValue.beq_str_iff prev.1 s).mp hpa
          obtain ⟨hpn, ⟨l1, hl1⟩⟩ := hacc prev hprev_mem
          have hpl1 : pyGetR prev.2 "loc" = Except.ok l1 := by
            unfold pyGetR
            unfold locOf at hl1
            rw [hl1]
          have hstep : unpivotStep acc o = Except.error
              (.runtimeError "multiple options with colliding ids found" (.str s) l1 lo) := by
            simp only [unpivotStep, hpg, hfind, hpl1, hplo]
          refine ⟨.str s, l1, lo, ?_, ?_, ?_⟩
          · rw [List.foldlM_cons, hstep]
            rfl
          · left
            exact ⟨prev, hprev_mem, by rw [hpn, hprev_key], hl1⟩
          · exact ⟨o, List.mem_cons_self o os, hs, hlo⟩
      | none =>
          have hstep : unpivotStep acc o = Except.ok (acc ++ [(.str s, o)]) := by
            simp only [unpivotStep, hpg, hfind]
          have hfind2 : acc.find? (fun p => JValue.beq p.1 (JValue.str s)) = none := hfind
          have hnotin : ∀ p ∈ acc, p.1 ≠ (JValue.str s) := by
            intro p hp hpe
            have hq := List.find?_eq_none.mp hfind2 p hp
            exact hq (by rw [hpe]; exact (JValue.beq_str_iff _ s).mpr rfl)
          have hacc2 : ∀ p ∈ acc ++ [((JValue.str s : JValue), o)],
              nameOf p.2 = some p.1 ∧ ∃ l, locOf p.2 = some l := by
            intro p hp
            rcases List.mem_append.mp hp with hp1 | hp2
            · exact hacc p hp1
            · have hpe : p = (JValue.str s, o) := by simpa using hp2
              subst hpe
              exact ⟨hs, lo, hlo⟩
          have hcol2 : (∃ r ∈ os, ∃ p ∈ acc ++ [((JValue.str s : JValue), o)],
              nameOf r = some p.1) ∨ ¬ (os.map nameOf).Nodup := by
            rcases hcol with ⟨r, hr, p, hp, hrp⟩ | hnd
            · rcases List.mem_cons.mp hr with hro | hr2
              · exfalso
                subst hro
                exact hnotin p hp (Option.some.inj (hs.symm.trans hrp)).symm
              · left
                exact ⟨r, hr2, p, List.mem_append_left _ hp, hrp⟩
            · rw [List.map_cons] at hnd
              rcases Classical.em (nameOf o ∈ os.map nameOf) with hmem | hmem
              · obtain ⟨r, hr, hre⟩ := List.mem_map.mp hmem
                left
                refine ⟨r, hr, (JValue.str s, o),
                  List.mem_append_right _ (List.mem_singleton.mpr rfl), ?_⟩
                show nameOf r = some (JValue.str s)
                rw [hre, hs]
              · right
                intro hnd2
                exact hnd (List.nodup_cons.mpr ⟨hmem, hnd2⟩)
          obtain ⟨n, l1, l2, heq, hl1src, hl2src⟩ :=
            ih (acc ++ [(JValue.str s, o)])
              (fun r hr => hf r (List.mem_cons_of_mem o hr)) hacc2 hcol2
          refine ⟨n, l1, l2, ?_, ?_, ?_⟩
          · rw [List.foldlM_cons, hstep]
            have hbind : (Except.ok (acc ++ [((JValue.str s : JValue), o)]) >>= fun x =>
                List.foldlM unpivotStep x os)
                = List.foldlM unpivotStep (acc ++ [(JValue.str s, o)]) os := rfl
            rw [hbind, heq]
          · rcases hl1src with ⟨p, hp, hpn2, hpl2⟩ | ⟨r, hr, hrn, hrl⟩
            · rcases List.mem_append.mp hp with hp1 | hp2
              · left
                exact ⟨p, hp1, hpn2, hpl2⟩
              · have hpe : p = (JValue.str s, o) := by simpa using hp2
                subst hpe
                right
                exact ⟨o, List.mem_cons_self o os, hpn2, hpl2⟩
            · right
              exact ⟨r, List.mem_cons_of_mem o hr, hrn, hrl⟩
          · obtain ⟨r, hr, hrn, hrl⟩ := hl2src
            exact ⟨r, List.mem_cons_of_mem o hr, hrn, hrl⟩

/-- C2: two records with distinct `loc` values but the same name make
`unpivot` fail with the colliding-ids error, which carries the shared
name and `loc` values of records bearing that name; when all names are
distinct, `unpivot` succeeds and returns exactly one record per name (in
insertion order). -/
theorem C2_unpivot_collision_detection (options : List Record)
    (hf : ∀ r ∈ options, (∃ s, nameOf r = some (.str s)) ∧ ∃ l, locOf r = some l) :
    ((∃ i : Fin options.length, ∃ j : Fin options.length, i ≠ j
        ∧ nameOf (options.get i) = nameOf (options.get j)
        ∧ locOf (options.get i) ≠ locOf (options.get j)) →
      ∃ n l1 l2,
        unpivot options = Except.error
          (.runtimeError "multiple options with colliding ids found" n l1 l2)
        ∧ (∃ r ∈ options, nameOf r = some n ∧ locOf r = some l1)
        ∧ (∃ r ∈ options, nameOf r = some n ∧ locOf r = some l2))
    ∧ ((options.map nameOf).Nodup → unpivot options = Except.ok options) := by
  constructor
  · rintro ⟨i, j, hij, hname, hloc⟩
    have hnd : ¬ (options.map nameOf).Nodup := by
      intro hn
      have hinj := List.nodup_iff_injective_get.mp hn
      have hlen : (options.map nameOf).length = options.length := List.length_map _ _
      have e1 : (options.map nameOf).get (Fin.cast hlen.symm i) = nameOf (options.get i) := by
        simp [List.get_eq_getElem, List.getElem_map, Fin.coe_cast]
      have e2 : (options.map nameOf).get (Fin.cast hlen.symm j) = nameOf (options.get j) := by
        simp [List.get_eq_getElem, List.getElem_map, Fin.coe_cast]
      have hcast := hinj (show (options.map nameOf).get (Fin.cast hlen.symm i)
          = (options.map nameOf).get (Fin.cast hlen.symm j) from by rw [e1, e2, hname])
      have hv := congrArg Fin.val hcast
      simp only [Fin.coe_cast] at hv
      exact hij (Fin.ext hv)
    obtain ⟨n, l1, l2, heq, hl1, hl2⟩ :=
      unpivot_fold_err options [] hf
        (fun p hp => absurd hp (List.not_mem_nil p)) (Or.inr hnd)
    refine ⟨n, l1, l2, ?_, ?_, hl2⟩
    · unfold unpivot
      rw [heq]
    · rcases hl1 with ⟨p, hp, _⟩ | h
      · exact absurd hp (List.not_mem_nil p)
      · exact h
  · intro hnd
    have h := unpivot_fold_ok options [] (fun r hr => (hf r hr).1)
      (fun r hr p hp => absurd hp (List.not_mem_nil p)) hnd
    unfold unpivot
    rw [h]
    simp only [List.nil_append, List.map_map]
    rw [show ((fun p => p.2) ∘ fun o => ((nameOf o).getD JValue.null, o))
        = (id : Record → Record) from rfl, List.map_id]

/-- `{name:"opt", loc:["a"]}`. -/
def C2recA : Record := [("name", .str "opt"), ("loc", .arr [.str "a"])]
/-- `{name:"opt", loc:["b"]}`: same name as `C2recA`, different loc. -/
def C2recB : Record := [("name", .str "opt"), ("loc", .arr [.str "b"])]
/-- `{name:"other", loc:["c"]}`: no collision with `C2recA`. -/
def C2recC : Record := [("name", .str "other"), ("loc", .arr [.str "c"])]

theorem C2_unpivot_witness :
    (∃ n l1 l2,
      unpivot [C2recA, C2recB] = Except.error
        (.runtimeError "multiple options with colliding ids found" n l1 l2)
      ∧ (∃ r ∈ [C2recA, C2recB], nameOf r = some n ∧ locOf r = some l1)
      ∧ (∃ r ∈ [C2recA, C2recB], nameOf r = some n ∧ locOf r = some l2))
    ∧ unpivot [C2recA, C2recC] = Except.ok [C2recA, C2recC] := by
  constructor
  · refine (C2_unpivot_collision_detection [C2recA, C2recB] ?_).1
      ⟨⟨0, by decide⟩, ⟨1, by decide⟩, by decide, by rfl, ?_⟩
    · intro r hr
      rcases List.mem_cons.mp hr with hre | hr2
      · subst hre
        exact ⟨⟨"opt", rfl⟩, ⟨.arr [.str "a"], rfl⟩⟩
      · have hre : r = C2recB := by simpa using hr2
        subst hre
        exact ⟨⟨"opt", rfl⟩, ⟨.arr [.str "b"], rfl⟩⟩
    · show locOf C2recA ≠ locOf C2recB
      intro h
      rw [show locOf C2recA = some (.arr [.str "a"]) from rfl,
        show locOf C2recB = some (.arr [.str "b"]) from rfl] at h
      injection h with h1
      injection h1 with h2
      injection h2 with h3 h4
      injection h3 with h5
      exact absurd h5 (by decide)
  · refine (C2_unpivot_collision_detection [C2recA, C2recC] ?_).2 ?_
    · intro r hr
      rcases List.mem_cons.mp hr with hre | hr2
      · subst hre
        exact ⟨⟨"opt", rfl⟩, ⟨.arr [.str "a"], rfl⟩⟩
      · have hre : r = C2recC := by simpa using hr2
        subst hre
        exact ⟨⟨"other", rfl⟩, ⟨.arr [.str "c"], rfl⟩⟩
    · rw [show List.map nameOf [C2recA, C2recC]
          = [some (.str "opt"), some (.str "other")] from rfl]
      refine List.nodup_cons.mpr ⟨?_, List.nodup_singleton _⟩
      intro hmem
      have h := List.mem_singleton.mp hmem
      injection h with h1
      injection h1 with h2
      exact absurd h2 (by decide)
